import Mathlib

/-!
Verification of the storage-key construction/validation engine and the
chain-head block client of the subxt repository, shallowly embedded in Lean.

Sources embedded:
- `src/core/src/storage/utils.rs` (key builder, schema validator, entry lookup)
- `src/subxt/src/blocks/block_types.rs` (chain-head block operations, event
  conversion, event cache, extrinsic event correlation)

Machine integers are modelled as `Nat` with explicit reduction modulo `2^64`
where the Rust code uses wrapping 64-bit arithmetic; bytes are `Nat` values
below 256; fallible Rust functions return `Except`.
-/

namespace Subxt

/-! ## 64-bit arithmetic helpers (wrapping semantics of Rust u64) -/

def M64 : Nat := 2 ^ 64

def add64 (a b : Nat) : Nat := (a + b) % M64

def mul64 (a b : Nat) : Nat := (a * b) % M64

def xor64 (a b : Nat) : Nat := Nat.xor a b

def rotl64 (r a : Nat) : Nat :=
  Nat.lor ((a * 2 ^ r) % M64) (a / 2 ^ (64 - r))

def shr64 (r a : Nat) : Nat := a / 2 ^ r

/-! ## twox (xxHash64-based) hashing

Modelled from the spec: `hash16` is "a 128-bit non-cryptographic digest,
producing a fixed 16-byte output per segment" — the twox-128 digest from the
external `sp_core_hashing` crate, which is xxHash64 with seed 0 concatenated
with xxHash64 with seed 1, each serialised as 8 little-endian bytes.
-/

def xxPrime1 : Nat := 11400714785074694791
def xxPrime2 : Nat := 14029467366897019727
def xxPrime3 : Nat := 1609587929392839161
def xxPrime4 : Nat := 9650029242287828579
def xxPrime5 : Nat := 2870177450012600261

/-- Read a little-endian 64-bit word from the first 8 bytes of a list. -/
def readU64le (bs : List Nat) : Nat :=
  match bs with
  | b0 :: b1 :: b2 :: b3 :: b4 :: b5 :: b6 :: b7 :: _ =>
      b0 + b1 * 2 ^ 8 + b2 * 2 ^ 16 + b3 * 2 ^ 24 +
      b4 * 2 ^ 32 + b5 * 2 ^ 40 + b6 * 2 ^ 48 + b7 * 2 ^ 56
  | _ => 0

/-- Read a little-endian 32-bit word from the first 4 bytes of a list. -/
def readU32le (bs : List Nat) : Nat :=
  match bs with
  | b0 :: b1 :: b2 :: b3 :: _ => b0 + b1 * 2 ^ 8 + b2 * 2 ^ 16 + b3 * 2 ^ 24
  | _ => 0

def xxRound (acc lane : Nat) : Nat :=
  mul64 (rotl64 31 (add64 acc (mul64 lane xxPrime2))) xxPrime1

def xxMergeRound (h acc : Nat) : Nat :=
  add64 (mul64 (xor64 h (xxRound 0 acc)) xxPrime1) xxPrime4

/-- Process 32-byte stripes, updating the four accumulators. -/
def xxStripes (bs : List Nat) (a1 a2 a3 a4 : Nat) : (Nat × Nat × Nat × Nat) × List Nat :=
  if _h : bs.length ≥ 32 then
    let l1 := readU64le bs
    let l2 := readU64le (bs.drop 8)
    let l3 := readU64le (bs.drop 16)
    let l4 := readU64le (bs.drop 24)
    xxStripes (bs.drop 32) (xxRound a1 l1) (xxRound a2 l2) (xxRound a3 l3) (xxRound a4 l4)
  else ((a1, a2, a3, a4), bs)
termination_by bs.length
decreasing_by
  simp only [List.length_drop]
  omega

/-- Process trailing 8-byte chunks. -/
def xxTail8 (bs : List Nat) (h : Nat) : Nat × List Nat :=
  if _hl : bs.length ≥ 8 then
    xxTail8 (bs.drop 8) (add64 (mul64 (rotl64 27 (xor64 h (xxRound 0 (readU64le bs)))) xxPrime1) xxPrime4)
  else (h, bs)
termination_by bs.length
decreasing_by
  simp only [List.length_drop]
  omega

/-- Process a trailing 4-byte chunk. -/
def xxTail4 (bs : List Nat) (h : Nat) : Nat × List Nat :=
  if bs.length ≥ 4 then
    (add64 (mul64 (rotl64 23 (xor64 h (mul64 (readU32le bs) xxPrime1))) xxPrime2) xxPrime3, bs.drop 4)
  else (h, bs)

/-- Process trailing single bytes. -/
def xxTail1 (bs : List Nat) (h : Nat) : Nat :=
  match bs with
  | [] => h
  | b :: rest => xxTail1 rest (mul64 (rotl64 11 (xor64 h (mul64 (b % 256) xxPrime5))) xxPrime1)

def xxAvalanche (h : Nat) : Nat :=
  let h := xor64 h (shr64 33 h)
  let h := mul64 h xxPrime2
  let h := xor64 h (shr64 29 h)
  let h := mul64 h xxPrime3
  xor64 h (shr64 32 h)

/-- xxHash64 of a byte list with the given seed. -/
def xxh64 (seed : Nat) (bs : List Nat) : Nat :=
  let len := bs.length
  let (h, rest) :=
    if len ≥ 32 then
      let ((a1, a2, a3, a4), rest) :=
        xxStripes bs (add64 (add64 seed xxPrime1) xxPrime2) (add64 seed xxPrime2) (seed % M64)
          ((seed + M64 - xxPrime1 % M64) % M64)
      let h := add64 (add64 (rotl64 1 a1) (rotl64 7 a2)) (add64 (rotl64 12 a3) (rotl64 18 a4))
      let h := xxMergeRound h a1
      let h := xxMergeRound h a2
      let h := xxMergeRound h a3
      let h := xxMergeRound h a4
      (h, rest)
    else (add64 seed xxPrime5, bs)
  let h := add64 h len
  let (h, rest) := xxTail8 rest h
  let (h, rest) := xxTail4 rest h
  let h := xxTail1 rest h
  xxAvalanche h

/-- Serialise a 64-bit value as 8 little-endian bytes. -/
def u64ToLeBytes (x : Nat) : List Nat :=
  [x % 256, x / 2 ^ 8 % 256, x / 2 ^ 16 % 256, x / 2 ^ 24 % 256,
   x / 2 ^ 32 % 256, x / 2 ^ 40 % 256, x / 2 ^ 48 % 256, x / 2 ^ 56 % 256]

/-- twox-128: xxHash64 at seeds 0 and 1, little-endian concatenated (16 bytes). -/
def twox128 (bs : List Nat) : List Nat :=
  u64ToLeBytes (xxh64 0 bs) ++ u64ToLeBytes (xxh64 1 bs)

/-- UTF-8 encoding of a single Unicode code point, as byte values. -/
def utf8EncodeCharNat (c : Nat) : List Nat :=
  if c < 0x80 then [c]
  else if c < 0x800 then
    [Nat.lor 0xC0 (c / 2 ^ 6), Nat.lor 0x80 (c % 2 ^ 6)]
  else if c < 0x10000 then
    [Nat.lor 0xE0 (c / 2 ^ 12), Nat.lor 0x80 (c / 2 ^ 6 % 2 ^ 6), Nat.lor 0x80 (c % 2 ^ 6)]
  else
    [Nat.lor 0xF0 (c / 2 ^ 18), Nat.lor 0x80 (c / 2 ^ 12 % 2 ^ 6),
     Nat.lor 0x80 (c / 2 ^ 6 % 2 ^ 6), Nat.lor 0x80 (c % 2 ^ 6)]

/-- The UTF-8 bytes of a string (`str::as_bytes` in the source). -/
def strBytes (s : String) : List Nat :=
  s.data.foldr (fun c acc => utf8EncodeCharNat c.toNat ++ acc) []

/-! ## Error types (`subxt::error` / `subxt_metadata`) -/

/-- The metadata error variants reachable from the embedded code
(`MetadataError` in the source). -/
inductive MetadataError where
  | PalletNameNotFound (name : String)
  | StorageNotFoundInPallet (name : String)
  | StorageEntryNotFound (name : String)
  | IncompatibleCodegen
  deriving DecidableEq

/-- The subxt `Error` variants reachable from the embedded code. `Codec`
wraps the external codec's diagnostic; `Other` wraps a plain message. -/
inductive Error where
  | Metadata (e : MetadataError)
  | Codec (msg : String)
  | Other (msg : String)
  deriving DecidableEq

/-- Display strings of metadata errors (derived from `thiserror` messages;
the exact text is opaque to every property proved below). -/
def MetadataError.toMessage : MetadataError → String
  | .PalletNameNotFound n => "Pallet with name " ++ n ++ " not found"
  | .StorageNotFoundInPallet n => "Storage is not found in pallet " ++ n
  | .StorageEntryNotFound n => "Storage entry " ++ n ++ " not found"
  | .IncompatibleCodegen => "The generated interface is not compatible with the node"

/-- Source `Error::to_string()` (the `thiserror` display of the error). -/
def Error.toMessage : Error → String
  | .Metadata e => e.toMessage
  | .Codec m => m
  | .Other m => m

/-! ## Metadata model

Modelled from the spec: the metadata service consumed by this code is not
under `src/`; spec section 6 gives its interface
(`palletByName`, `ModuleHandle.storage()`, `StorageSection.entryByName`,
`ModuleHandle.storageHash(entryName) -> 32-byte-hash?`). Lookup is by exact,
case-sensitive name match.
-/

/-- A storage entry descriptor: a name and its declared value type id. -/
structure StorageEntryMetadata where
  name : String
  valueTy : Nat
  deriving DecidableEq

/-- A module's storage section: its list of entries. -/
structure StorageMetadata where
  entries : List StorageEntryMetadata
  deriving DecidableEq

/-- A module (pallet) descriptor: name, optional storage section, and the
precomputed per-entry validation hashes. -/
structure PalletMetadata where
  name : String
  storage : Option StorageMetadata
  storageHashes : List (String × List Nat)
  deriving DecidableEq

/-- Spec interface `StorageSection.entryByName`. -/
def StorageMetadata.entry_by_name (s : StorageMetadata) (name : String) :
    Option StorageEntryMetadata :=
  s.entries.find? (fun e => e.name == name)

/-- Spec interface `ModuleHandle.storageHash(entryName)`. -/
def PalletMetadata.storage_hash (p : PalletMetadata) (entry : String) : Option (List Nat) :=
  (p.storageHashes.find? (fun kv => kv.1 == entry)).map (fun kv => kv.2)

/-- The metadata: a list of pallets. -/
structure Metadata where
  pallets : List PalletMetadata
  deriving DecidableEq

/-- Spec interface `palletByName`. -/
def Metadata.pallet_by_name (m : Metadata) (name : String) : Option PalletMetadata :=
  m.pallets.find? (fun p => p.name == name)

/-- Source `pallet_by_name_err`: as `pallet_by_name`, erring with `PalletNameNotFound`. -/
def Metadata.pallet_by_name_err (m : Metadata) (name : String) :
    Except Error PalletMetadata :=
  match m.pallet_by_name name with
  | some p => .ok p
  | none => .error (.Metadata (.PalletNameNotFound name))

/-! ## Storage addresses (the `StorageAddress` trait) -/

/-- A storage address: pallet/entry names, an optional precomputed validation
hash, and the address's own map-key encoder `append_entry_bytes` (modelled
from the spec: the trait implementations are not under `src/`; spec 4.1 says
it appends "address-specific map-key encoding", possibly consulting metadata,
and may fail). -/
structure StorageAddress where
  pallet_name : String
  entry_name : String
  validation_hash : Option (List Nat)
  appendEntryBytes : Metadata → List Nat → Except Error (List Nat)

/-! ## Key builder (`src/core/src/storage/utils.rs`) -/

/-- Source `write_storage_address_root_bytes`: hash the pallet name and entry name
and append those bytes to the output. -/
def write_storage_address_root_bytes (addr : StorageAddress) (out : List Nat) : List Nat :=
  out ++ twox128 (strBytes addr.pallet_name) ++ twox128 (strBytes addr.entry_name)

/-- Source `storage_address_bytes`: the root bytes plus any additional bytes that
represent a lookup in a storage map at that location. -/
def storage_address_bytes (addr : StorageAddress) (metadata : Metadata) :
    Except Error (List Nat) :=
  addr.appendEntryBytes metadata (write_storage_address_root_bytes addr [])

/-- Source `storage_address_root_bytes`: a vector containing the bytes written by
`write_storage_address_root_bytes`. -/
def storage_address_root_bytes (addr : StorageAddress) : List Nat :=
  write_storage_address_root_bytes addr []

/-! ## Schema validator and entry lookup (`src/core/src/storage/utils.rs`) -/

/-- Source `lookup_entry_details`: return details about the given storage entry. -/
def lookup_entry_details (pallet_name entry_name : String) (metadata : Metadata) :
    Except Error (PalletMetadata × StorageEntryMetadata) :=
  match metadata.pallet_by_name_err pallet_name with
  | .error e => .error e
  | .ok pallet_metadata =>
    match pallet_metadata.storage with
    | none => .error (.Metadata (.StorageNotFoundInPallet pallet_name))
    | some storage_metadata =>
      match storage_metadata.entry_by_name entry_name with
      | none => .error (.Metadata (.StorageEntryNotFound entry_name))
      | some storage_entry => .ok (pallet_metadata, storage_entry)

/-- Source `validate_storage`: validate a storage entry against the metadata. -/
def validate_storage (pallet : PalletMetadata) (storage_name : String)
    (hash : List Nat) : Except Error Unit :=
  match pallet.storage_hash storage_name with
  | none => .error (.Metadata .IncompatibleCodegen)
  | some expected_hash =>
    if expected_hash ≠ hash then .error (.Metadata .IncompatibleCodegen)
    else .ok ()

/-- Source `validate_storage_address`: validate a storage address against the
metadata. -/
def validate_storage_address (address : StorageAddress) (pallet : PalletMetadata) :
    Except Error Unit :=
  match address.validation_hash with
  | some hash => validate_storage pallet address.entry_name hash
  | none => .ok ()

/-! ## Chain-head block client (`src/subxt/src/blocks/block_types.rs`) -/

/-- Error resulting from the `ChainHeadBlock` methods. -/
inductive ChainHeadError where
  | Inaccessible (msg : String)
  | Error (msg : String)
  | Disjoint
  | ResourceNonExistent
  | Other (msg : String)
  deriving DecidableEq

/-- Source impl `From<Error> for ChainHeadError`. -/
def chainHeadErrorOfError (e : Error) : ChainHeadError :=
  .Other e.toMessage

/-- A terminal event of a chain-head result subscription
(`ChainHeadEvent<T>`, with the one-field `ChainHeadResult` wrapper of the
`Done` variant collapsed into the payload). -/
inductive ChainHeadEvent (α : Type) where
  | Done (result : α)
  | Inaccessible (error : String)
  | Error (error : String)
  | Disjoint
  deriving DecidableEq

/-- Hex digit value of a character, if any. -/
def hexDigitVal (c : Char) : Option Nat :=
  if '0' ≤ c ∧ c ≤ '9' then some (c.toNat - '0'.toNat)
  else if 'a' ≤ c ∧ c ≤ 'f' then some (c.toNat - 'a'.toNat + 10)
  else if 'A' ≤ c ∧ c ≤ 'F' then some (c.toNat - 'A'.toNat + 10)
  else none

/-- External `hex::decode`: pairs of hex digits to bytes; fails on an odd count or a
non-hex character (the message models the external crate's diagnostic). -/
def hexDecodeChars : List Char → Except String (List Nat)
  | [] => .ok []
  | [_] => .error "Odd number of digits"
  | c1 :: c2 :: rest =>
    match hexDigitVal c1, hexDigitVal c2 with
    | some hi, some lo =>
      match hexDecodeChars rest with
      | .ok bs => .ok ((hi * 16 + lo) :: bs)
      | .error e => .error e
    | _, _ => .error "Invalid character"

/-- Rust `s.trim_start_matches("0x")`: strip every leading occurrence of `0x`. -/
def trimStart0x : List Char → List Char
  | '0' :: 'x' :: rest => trimStart0x rest
  | cs => cs

/-- Composition `hex::decode(s.trim_start_matches("0x"))`. -/
def hexDecode0x (s : String) : Except String (List Nat) :=
  hexDecodeChars (trimStart0x s.data)

/-- Source impl `TryFrom<ChainHeadEvent<String>> for Vec<u8>`. -/
def chainHeadEventToBytes (event : ChainHeadEvent String) :
    Except ChainHeadError (List Nat) :=
  match event with
  | .Done result =>
    match hexDecode0x result with
    | .error msg => .error (.Other msg)
    | .ok bytes => .ok bytes
  | .Inaccessible err => .error (.Inaccessible err)
  | .Error err => .error (.Error err)
  | .Disjoint => .error .Disjoint

/-- Source impl `TryFrom<ChainHeadEvent<Option<String>>> for Option<Vec<u8>>`; the
`Done (some _)` arm re-wraps the payload and delegates to the `String`
conversion, as the source does. -/
def chainHeadEventOptToBytes (event : ChainHeadEvent (Option String)) :
    Except ChainHeadError (Option (List Nat)) :=
  match event with
  | .Done none => .ok none
  | .Done (some result) =>
    match chainHeadEventToBytes (.Done result) with
    | .ok bytes => .ok (some bytes)
    | .error e => .error e
  | .Inaccessible err => .error (.Inaccessible err)
  | .Error err => .error (.Error err)
  | .Disjoint => .error .Disjoint

/-- A result subscription, embedded as the list of items it will yield; each
item is either a terminal event or an RPC-layer error (the `event?` in the
source). -/
def Subscription (α : Type) : Type :=
  List (Except Error (ChainHeadEvent α))

/-- Source `fetch_storage`: await the first item of the storage result subscription
and convert it; if the subscription yields nothing, fail with the
"Failed to fetch the block storage" message. -/
def fetch_storage (sub : Subscription (Option String)) :
    Except ChainHeadError (Option (List Nat)) :=
  match sub with
  | [] => .error (.Other "Failed to fetch the block storage")
  | event :: _ =>
    match event with
    | .error e => .error (chainHeadErrorOfError e)
    | .ok ev => chainHeadEventOptToBytes ev

/-- Source `ChainHeadBlock::storage_raw`: open the storage result subscription for
the given key bytes (the subscription opener stands for
`subscribe_chainhead_storage`, already scoped to this block's subscription
id and hash) and run `fetch_storage` on it. -/
def storage_raw (subscribe : List Nat → Subscription (Option String))
    (key : List Nat) : Except ChainHeadError (Option (List Nat)) :=
  fetch_storage (subscribe key)

/-- Source `ChainHeadBlock::storage` (typed): build the key bytes, fetch the raw
storage, and decode. `decodeValue` stands for
`decode_storage_with_metadata`, the Decode Bridge (modelled from the spec:
that trait method is not under `src/`; it resolves the entry's value type
from the names and metadata and delegates to the external codec). -/
def ChainHeadBlock.storage {Target : Type}
    (metadata : Metadata) (key : StorageAddress)
    (subscribe : List Nat → Subscription (Option String))
    (decodeValue : String → String → Metadata → List Nat → Except Error Target) :
    Except ChainHeadError (Option Target) :=
  match storage_address_bytes key metadata with
  | .error e => .error (chainHeadErrorOfError e)
  | .ok key_bytes =>
    match storage_raw subscribe key_bytes with
    | .error e => .error e
    | .ok none => .ok none
    | .ok (some bytes) =>
      match decodeValue key.pallet_name key.entry_name metadata bytes with
      | .error e => .error (chainHeadErrorOfError e)
      | .ok storage => .ok (some storage)

/-- Source `ChainHeadBlock::fetch_header`: call the request/response
`chainhead_header` RPC method with the subscription id and block hash; a
missing header is `ResourceNonExistent`; otherwise hex-decode the payload
and decode the header (`decodeHeader` stands for the external codec's
`T::Header` decoding). -/
def fetch_header {Header : Type}
    (decodeHeader : List Nat → Except Error Header)
    (subscription_id : String) (hash : List Nat)
    (rpcHeader : String → List Nat → Except Error (Option String)) :
    Except ChainHeadError Header :=
  match rpcHeader subscription_id hash with
  | .error e => .error (chainHeadErrorOfError e)
  | .ok none => .error .ResourceNonExistent
  | .ok (some header) =>
    match hexDecode0x header with
    | .error msg => .error (chainHeadErrorOfError (.Other msg))
    | .ok bytes =>
      match decodeHeader bytes with
      | .error e => .error (chainHeadErrorOfError e)
      | .ok h => .ok h

/-- An event-list view (`events::Events<T>`): metadata, block hash, and the
raw event bytes, as built by `Events::new` (modelled from the spec: the
events module is not under `src/`; the view is constructed over the fetched
bytes without decoding them). -/
structure Events where
  metadata : Metadata
  block_hash : List Nat
  bytes : List Nat
  deriving DecidableEq

/-- The fixed key of the well-known events entry:
`twox_128(b"System") ++ twox_128(b"Events")`. -/
def systemEventsKey : List Nat :=
  twox128 (strBytes "System") ++ twox128 (strBytes "Events")

/-- Source `ChainHeadBlock::events`: fetch raw storage at the fixed
`System`/`Events` key and build an event-list view over the bytes; a missing
value is an `Other` error. -/
def ChainHeadBlock.events (metadata : Metadata) (hash : List Nat)
    (subscribe : List Nat → Subscription (Option String)) :
    Except ChainHeadError Events :=
  match storage_raw subscribe systemEventsKey with
  | .error e => .error e
  | .ok none => .error (.Other "Failed to fetch System::Events storage")
  | .ok (some event_bytes) => .ok ⟨metadata, hash, event_bytes⟩

/-! ## Event cache (`get_events`) -/

/-- Observable outcome of one `get_events` call in the state-passing
embedding: the returned value, the cache cell's contents after the lock is
released, and how many underlying fetches were performed. -/
structure GetEventsOutcome where
  result : Except Error Events
  cacheAfter : Option Events
  fetches : Nat

/-- Source `get_events`: under the cache lock, return the cached events if the cell
is populated; otherwise perform one fetch (`EventsClient::new(..).at(..)`,
whose result is the `fetch` argument) and return its value. The source's
`None` arm returns the fetched events without writing them back into the
cell, so `cacheAfter` is `none` on that path. -/
def get_events (cached_events : Option Events) (fetch : Except Error Events) :
    GetEventsOutcome :=
  match cached_events with
  | some events => ⟨.ok events, some events, 0⟩
  | none =>
    match fetch with
    | .ok events => ⟨.ok events, none, 1⟩
    | .error e => ⟨.error e, none, 1⟩

/-! ## Extrinsic event correlation (`ExtrinsicEvents`) -/

/-- The phase of an event (`events::Phase`). -/
inductive Phase where
  | ApplyExtrinsic (idx : Nat)
  | Finalization
  | Initialization
  deriving DecidableEq

/-- A decoded event (`events::EventDetails`): its phase plus an abstract
payload distinguishing events. -/
structure EventDetails where
  phase : Phase
  payload : Nat
  deriving DecidableEq

/-- The events associated with a given extrinsic: the extrinsic hash, the
extrinsic's index, and the full block event list. `events` is the sequence
of decode results that `events::Events::iter()` yields over the stored
bytes (modelled from the spec: the events module is not under `src/`; its
iterator lazily decodes each event, yielding a result per event). -/
structure ExtrinsicEvents where
  ext_hash : List Nat
  idx : Nat
  events : List (Except Error EventDetails)

/-- Source `ExtrinsicEvents::iter`: the full block event list filtered to events
whose phase is `ApplyExtrinsic` at this extrinsic's index; decode errors
are kept. -/
def ExtrinsicEvents.iter (ee : ExtrinsicEvents) : List (Except Error EventDetails) :=
  ee.events.filter (fun ev =>
    match ev with
    | .ok ev => ev.phase == Phase.ApplyExtrinsic ee.idx
    | .error _ => true)

/-- Source `ExtrinsicEvents::find`: typed matching layered on `iter` via
`ev.and_then(|ev| ev.as_event()).transpose()`; `asEvent` stands for
`EventDetails::as_event::<Ev>` (modelled from the spec: the events module is
not under `src/`; it returns an optional typed event or a decode error). -/
def ExtrinsicEvents.find {Ev : Type} (asEvent : EventDetails → Except Error (Option Ev))
    (ee : ExtrinsicEvents) : List (Except Error Ev) :=
  ee.iter.filterMap (fun ev =>
    match ev with
    | .error e => some (.error e)
    | .ok ev =>
      match asEvent ev with
      | .error e => some (.error e)
      | .ok none => none
      | .ok (some v) => some (.ok v))

/-- Helper for `.next().transpose()` on an iterator of results. -/
def nextTranspose {Ev : Type} (l : List (Except Error Ev)) : Except Error (Option Ev) :=
  match l.head? with
  | none => .ok none
  | some (.ok v) => .ok (some v)
  | some (.error e) => .error e

/-- Source `ExtrinsicEvents::find_first`: first element of `find`, transposed. -/
def ExtrinsicEvents.find_first {Ev : Type}
    (asEvent : EventDetails → Except Error (Option Ev)) (ee : ExtrinsicEvents) :
    Except Error (Option Ev) :=
  nextTranspose (ee.find asEvent)

/-- Source `ExtrinsicEvents::has`:
`Ok(self.find::<Ev>().next().transpose()?.is_some())`. -/
def ExtrinsicEvents.has {Ev : Type}
    (asEvent : EventDetails → Except Error (Option Ev)) (ee : ExtrinsicEvents) :
    Except Error Bool :=
  match nextTranspose (ee.find asEvent) with
  | .error e => .error e
  | .ok o => .ok o.isSome

/-! ## Concrete sample values used by witnesses and counterexamples -/

instance {ε α : Type} [DecidableEq ε] [DecidableEq α] : DecidableEq (Except ε α) :=
  fun a b =>
    match a, b with
    | .ok x, .ok y =>
      if h : x = y then .isTrue (by rw [h]) else .isFalse (fun hc => h (Except.ok.inj hc))
    | .error x, .error y =>
      if h : x = y then .isTrue (by rw [h]) else .isFalse (fun hc => h (Except.error.inj hc))
    | .ok _, .error _ => .isFalse (fun hc => Except.noConfusion hc)
    | .error _, .ok _ => .isFalse (fun hc => Except.noConfusion hc)

def hashA : List Nat := List.replicate 32 1

def hashB : List Nat := List.replicate 32 2

def totalIssuanceEntry : StorageEntryMetadata := ⟨"TotalIssuance", 5⟩

def balancesPallet : PalletMetadata :=
  ⟨"Balances", some ⟨[totalIssuanceEntry]⟩, [("TotalIssuance", hashA)]⟩

def noStoragePallet : PalletMetadata := ⟨"NoStorage", none, []⟩

def sampleMetadata : Metadata := ⟨[balancesPallet, noStoragePallet]⟩

/-- An address with no validation hash and no map-key suffix. -/
def balancesTotalIssuanceAddr : StorageAddress :=
  ⟨"Balances", "TotalIssuance", none, fun _ bytes => .ok bytes⟩

/-- An address whose validation hash matches `balancesPallet`'s. -/
def matchedAddr : StorageAddress :=
  ⟨"Balances", "TotalIssuance", some hashA, fun _ bytes => .ok bytes⟩

/-- An address whose validation hash mismatches `balancesPallet`'s. -/
def mismatchedAddr : StorageAddress :=
  ⟨"Balances", "TotalIssuance", some hashB, fun _ bytes => .ok bytes⟩

/-- An address naming an entry with no hash in `balancesPallet`. -/
def absentEntryAddr : StorageAddress :=
  ⟨"Balances", "Absent", some hashA, fun _ bytes => .ok bytes⟩

/-- An address whose map-key encoder fails. -/
def badKeyAddr : StorageAddress :=
  ⟨"Balances", "TotalIssuance", none, fun _ _ => .error (.Other "wrong number of map keys")⟩

/-- A subscription opener whose stream yields `Done(Some "0x2a")`. -/
def subDone42 : List Nat → Subscription (Option String) :=
  fun _ => [.ok (.Done (some "0x2a"))]

/-- A subscription opener whose stream yields `Done(None)`. -/
def subDoneNone : List Nat → Subscription (Option String) :=
  fun _ => [.ok (.Done none)]

/-- A subscription opener whose stream yields `Disjoint`. -/
def subDisjointEv : List Nat → Subscription (Option String) :=
  fun _ => [.ok .Disjoint]

/-- A decode bridge that returns the raw bytes unchanged. -/
def decodeBytesId : String → String → Metadata → List Nat → Except Error (List Nat) :=
  fun _ _ _ bytes => .ok bytes

def sampleEvents : Events := ⟨sampleMetadata, [7], [1, 2, 3]⟩

/-! ## Theorems -/

theorem twox128_length (bs : List Nat) : (twox128 bs).length = 16 := by
  simp [twox128, u64ToLeBytes]

/-- Claim C4: for every (module, entry) pair, the root bytes are
deterministically `twox128(module) ++ twox128(entry)` in that order, 32
bytes in total; in particular for "Balances"/"TotalIssuance" with no map
key the result is exactly 32 bytes. -/
theorem storage_root_bytes_spec :
    (∀ addr : StorageAddress,
      storage_address_root_bytes addr =
        twox128 (strBytes addr.pallet_name) ++ twox128 (strBytes addr.entry_name) ∧
      (storage_address_root_bytes addr).length = 32) ∧
    storage_address_root_bytes balancesTotalIssuanceAddr =
      twox128 (strBytes "Balances") ++ twox128 (strBytes "TotalIssuance") ∧
    (storage_address_root_bytes balancesTotalIssuanceAddr).length = 32 := by
  have hgen : ∀ addr : StorageAddress,
      storage_address_root_bytes addr =
        twox128 (strBytes addr.pallet_name) ++ twox128 (strBytes addr.entry_name) := by
    intro addr
    simp [storage_address_root_bytes, write_storage_address_root_bytes]
  have hlen : ∀ addr : StorageAddress,
      (storage_address_root_bytes addr).length = 32 := by
    intro addr
    rw [hgen]
    simp [twox128_length]
  exact ⟨fun addr => ⟨hgen addr, hlen addr⟩, hgen _, hlen _⟩

/-- Claim C5: an address with no validation hash always validates; an
address carrying a hash fails with the incompatible-schema error
(`IncompatibleCodegen` in the source) when the metadata has no hash for the
entry or a different one. -/
theorem validate_storage_address_spec :
    ∀ (addr : StorageAddress) (pallet : PalletMetadata),
      (addr.validation_hash = none → validate_storage_address addr pallet = .ok ()) ∧
      (∀ h, addr.validation_hash = some h →
        pallet.storage_hash addr.entry_name = none →
        validate_storage_address addr pallet = .error (.Metadata .IncompatibleCodegen)) ∧
      (∀ h expected, addr.validation_hash = some h →
        pallet.storage_hash addr.entry_name = some expected → expected ≠ h →
        validate_storage_address addr pallet = .error (.Metadata .IncompatibleCodegen)) := by
  intro addr pallet
  refine ⟨fun hnone => ?_, fun h hsome hmiss => ?_,
    fun h expected hsome hfound hne => ?_⟩
  · simp [validate_storage_address, hnone]
  · simp [validate_storage_address, hsome, validate_storage, hmiss]
  · simp [validate_storage_address, hsome, validate_storage, hfound, hne]

theorem validate_storage_address_spec_witness :
    validate_storage_address balancesTotalIssuanceAddr balancesPallet = .ok () ∧
    validate_storage_address mismatchedAddr balancesPallet =
      .error (.Metadata .IncompatibleCodegen) ∧
    validate_storage_address absentEntryAddr balancesPallet =
      .error (.Metadata .IncompatibleCodegen) :=
  ⟨(validate_storage_address_spec balancesTotalIssuanceAddr balancesPallet).1 rfl,
   (validate_storage_address_spec mismatchedAddr balancesPallet).2.2 hashB hashA rfl
     (by decide) (by decide),
   (validate_storage_address_spec absentEntryAddr balancesPallet).2.1 hashA rfl
     (by decide)⟩

/-- Claim C6: `lookup_entry_details` fails with `PalletNameNotFound` when no
pallet of that name exists, `StorageNotFoundInPallet` when the pallet has no
storage section, `StorageEntryNotFound` when the entry name is absent, and
otherwise returns the pallet handle and entry descriptor. -/
theorem lookup_entry_details_spec :
    ∀ (pn en : String) (m : Metadata),
      (m.pallet_by_name pn = none →
        lookup_entry_details pn en m = .error (.Metadata (.PalletNameNotFound pn))) ∧
      (∀ p, m.pallet_by_name pn = some p → p.storage = none →
        lookup_entry_details pn en m =
          .error (.Metadata (.StorageNotFoundInPallet pn))) ∧
      (∀ p s, m.pallet_by_name pn = some p → p.storage = some s →
        s.entry_by_name en = none →
        lookup_entry_details pn en m =
          .error (.Metadata (.StorageEntryNotFound en))) ∧
      (∀ p s e, m.pallet_by_name pn = some p → p.storage = some s →
        s.entry_by_name en = some e →
        lookup_entry_details pn en m = .ok (p, e)) := by
  intro pn en m
  refine ⟨fun h1 => ?_, fun p h1 h2 => ?_, fun p s h1 h2 h3 => ?_,
    fun p s e h1 h2 h3 => ?_⟩
  · simp [lookup_entry_details, Metadata.pallet_by_name_err, h1]
  · simp [lookup_entry_details, Metadata.pallet_by_name_err, h1, h2]
  · simp [lookup_entry_details, Metadata.pallet_by_name_err, h1, h2, h3]
  · simp [lookup_entry_details, Metadata.pallet_by_name_err, h1, h2, h3]

theorem lookup_entry_details_spec_witness :
    lookup_entry_details "Missing" "TotalIssuance" sampleMetadata =
      .error (.Metadata (.PalletNameNotFound "Missing")) ∧
    lookup_entry_details "NoStorage" "TotalIssuance" sampleMetadata =
      .error (.Metadata (.StorageNotFoundInPallet "NoStorage")) ∧
    lookup_entry_details "Balances" "Absent" sampleMetadata =
      .error (.Metadata (.StorageEntryNotFound "Absent")) ∧
    lookup_entry_details "Balances" "TotalIssuance" sampleMetadata =
      .ok (balancesPallet, totalIssuanceEntry) :=
  ⟨(lookup_entry_details_spec "Missing" "TotalIssuance" sampleMetadata).1 (by decide),
   (lookup_entry_details_spec "NoStorage" "TotalIssuance" sampleMetadata).2.1
     noStoragePallet (by decide) rfl,
   (lookup_entry_details_spec "Balances" "Absent" sampleMetadata).2.2.1
     balancesPallet ⟨[totalIssuanceEntry]⟩ (by decide) rfl (by decide),
   (lookup_entry_details_spec "Balances" "TotalIssuance" sampleMetadata).2.2.2
     balancesPallet ⟨[totalIssuanceEntry]⟩ totalIssuanceEntry (by decide) rfl
     (by decide)⟩

/-- Claim C2 counterexample: an address whose validation hash mismatches the
metadata does not make the typed storage operation fail — the operation
never invokes the schema validator. With `mismatchedAddr` (hash `hashB`
against the metadata's `hashA`), validation would fail, yet the typed
storage call fetches and returns a decoded value. -/
theorem storage_skips_validation_cex :
    sampleMetadata.pallet_by_name "Balances" = some balancesPallet ∧
    validate_storage_address mismatchedAddr balancesPallet =
      .error (.Metadata .IncompatibleCodegen) ∧
    ChainHeadBlock.storage sampleMetadata mismatchedAddr subDone42 decodeBytesId =
      .ok (some [42]) := by
  refine ⟨by decide, by decide, by decide⟩

/-- Claim C2 (amended): the typed `ChainHeadBlock::storage` composes the key
builder with the raw storage fetch and then the decode bridge, with no
schema validation: a key-encoding failure makes the operation fail without
fetching (the result does not depend on the subscription), and a raw fetch
that returns no bytes makes it return `None` for every decode bridge,
without attempting to decode. -/
theorem storage_compose_contract :
    ∀ {Target : Type} (m : Metadata) (addr : StorageAddress)
      (subscribe : List Nat → Subscription (Option String))
      (decodeValue : String → String → Metadata → List Nat → Except Error Target),
      (∀ e, storage_address_bytes addr m = .error e →
        ChainHeadBlock.storage m addr subscribe decodeValue =
          .error (chainHeadErrorOfError e)) ∧
      (∀ kb, storage_address_bytes addr m = .ok kb →
        storage_raw subscribe kb = .ok none →
        ChainHeadBlock.storage m addr subscribe decodeValue = .ok none) ∧
      (∀ kb bytes, storage_address_bytes addr m = .ok kb →
        storage_raw subscribe kb = .ok (some bytes) →
        ChainHeadBlock.storage m addr subscribe decodeValue =
          (match decodeValue addr.pallet_name addr.entry_name m bytes with
           | .error e => .error (chainHeadErrorOfError e)
           | .ok v => .ok (some v))) := by
  intro Target m addr subscribe decodeValue
  refine ⟨fun e h1 => ?_, fun kb h1 h2 => ?_, fun kb bytes h1 h2 => ?_⟩
  · simp [ChainHeadBlock.storage, h1]
  · simp [ChainHeadBlock.storage, h1, h2]
  · simp [ChainHeadBlock.storage, h1, h2]

theorem storage_compose_contract_witness :
    ChainHeadBlock.storage sampleMetadata badKeyAddr subDone42 decodeBytesId =
      .error (.Other "wrong number of map keys") ∧
    ChainHeadBlock.storage sampleMetadata balancesTotalIssuanceAddr subDoneNone
      decodeBytesId = .ok none ∧
    ChainHeadBlock.storage sampleMetadata balancesTotalIssuanceAddr subDone42
      decodeBytesId = .ok (some [42]) :=
  ⟨(storage_compose_contract sampleMetadata badKeyAddr subDone42 decodeBytesId).1
     (.Other "wrong number of map keys") rfl,
   (storage_compose_contract sampleMetadata balancesTotalIssuanceAddr subDoneNone
     decodeBytesId).2.1 (storage_address_root_bytes balancesTotalIssuanceAddr) rfl rfl,
   (storage_compose_contract sampleMetadata balancesTotalIssuanceAddr subDone42
     decodeBytesId).2.2 (storage_address_root_bytes balancesTotalIssuanceAddr) [42]
     rfl (by decide)⟩

/-- A header decoder that returns the raw bytes unchanged. -/
def decodeHeaderId : List Nat → Except Error (List Nat) := fun bs => .ok bs

/-- An RPC responder returning no header. -/
def rpcNone : String → List Nat → Except Error (Option String) := fun _ _ => .ok none

/-- An RPC responder returning a malformed hex payload. -/
def rpcBadHex : String → List Nat → Except Error (Option String) :=
  fun _ _ => .ok (some "0xzz")

/-- An RPC responder returning the hex payload "0x2a". -/
def rpcGood : String → List Nat → Except Error (Option String) :=
  fun _ _ => .ok (some "0x2a")

/-- Claim C3 counterexample: the header operation is not subscription-based
and does not fail with the `OperationIncomplete`-style `Other` message when
no header comes back — the `chainhead_header` request/response call
returning no header yields `ResourceNonExistent`. -/
theorem header_contract_cex :
    fetch_header decodeHeaderId "sub-id" [9] rpcNone =
      .error .ResourceNonExistent ∧
    ChainHeadError.ResourceNonExistent ≠
      ChainHeadError.Other "Failed to fetch the block header" :=
  ⟨rfl, by decide⟩

/-- Claim C3 (amended): the public header operation issues the
request/response `chainhead_header` call scoped to (subscription id, block
hash) and its result depends only on that call's response: a missing header
fails with `ResourceNonExistent`, malformed hex fails with `Other`, and a
well-formed response decodes to the header. -/
theorem fetch_header_contract :
    ∀ {Header : Type} (dec : List Nat → Except Error Header) (sid : String)
      (hash : List Nat) (rpc : String → List Nat → Except Error (Option String)),
      (rpc sid hash = .ok none →
        fetch_header dec sid hash rpc = .error .ResourceNonExistent) ∧
      (∀ s msg, rpc sid hash = .ok (some s) → hexDecode0x s = .error msg →
        fetch_header dec sid hash rpc = .error (.Other msg)) ∧
      (∀ s bytes h, rpc sid hash = .ok (some s) → hexDecode0x s = .ok bytes →
        dec bytes = .ok h → fetch_header dec sid hash rpc = .ok h) ∧
      (∀ rpc2 : String → List Nat → Except Error (Option String),
        rpc sid hash = rpc2 sid hash →
        fetch_header dec sid hash rpc = fetch_header dec sid hash rpc2) := by
  intro Header dec sid hash rpc
  refine ⟨fun h1 => ?_, fun s msg h1 h2 => ?_, fun s bytes h h1 h2 h3 => ?_,
    fun rpc2 h1 => ?_⟩
  · simp [fetch_header, h1]
  · simp [fetch_header, h1, h2, chainHeadErrorOfError, Error.toMessage]
  · simp [fetch_header, h1, h2, h3]
  · simp only [fetch_header]
    rw [← h1]

theorem fetch_header_contract_witness :
    fetch_header decodeHeaderId "sub-id" [9] rpcNone =
      .error .ResourceNonExistent ∧
    fetch_header decodeHeaderId "sub-id" [9] rpcBadHex =
      .error (.Other "Invalid character") ∧
    fetch_header decodeHeaderId "sub-id" [9] rpcGood =
      .ok [42] :=
  ⟨(fetch_header_contract decodeHeaderId "sub-id" [9] rpcNone).1 rfl,
   (fetch_header_contract decodeHeaderId "sub-id" [9] rpcBadHex).2.1
     "0xzz" "Invalid character" rfl (by decide),
   (fetch_header_contract decodeHeaderId "sub-id" [9] rpcGood).2.2.1
     "0x2a" [42] [42] rfl (by decide) rfl⟩

/-- Claim C7: the conversion of a storage subscription's terminal event is
1:1 on the non-`Done` shapes — `Inaccessible`, `Error` and `Disjoint` map to
the `ChainHeadError` of the same name — and `Done(None)` yields `Ok(None)`;
a storage subscription yielding `Disjoint` makes the typed storage call
propagate `ChainHeadError::Disjoint` for every decode bridge, so no decode
is attempted. -/
theorem chain_head_event_conversion_spec :
    (∀ r : String,
      chainHeadEventOptToBytes (.Inaccessible r) = .error (.Inaccessible r)) ∧
    (∀ r : String, chainHeadEventOptToBytes (.Error r) = .error (.Error r)) ∧
    chainHeadEventOptToBytes .Disjoint = .error .Disjoint ∧
    chainHeadEventOptToBytes (.Done none) = .ok none ∧
    (∀ (Target : Type) (m : Metadata) (addr : StorageAddress) (kb : List Nat)
      (decodeValue : String → String → Metadata → List Nat → Except Error Target),
      storage_address_bytes addr m = .ok kb →
      ChainHeadBlock.storage m addr subDisjointEv decodeValue =
        .error .Disjoint) := by
  refine ⟨fun r => rfl, fun r => rfl, rfl, rfl, ?_⟩
  intro Target m addr kb decodeValue h1
  simp [ChainHeadBlock.storage, h1, storage_raw, subDisjointEv, fetch_storage,
    chainHeadEventOptToBytes]

theorem chain_head_event_conversion_spec_witness :
    ChainHeadBlock.storage sampleMetadata balancesTotalIssuanceAddr subDisjointEv
      decodeBytesId = .error .Disjoint :=
  chain_head_event_conversion_spec.2.2.2.2 (List Nat) sampleMetadata
    balancesTotalIssuanceAddr (storage_address_root_bytes balancesTotalIssuanceAddr)
    decodeBytesId rfl

/-- Claim C8: `ChainHeadBlock::events` fetches raw storage at the fixed key
`twox128("System") ++ twox128("Events")` — its result depends only on the
subscription opened at that key — constructs an event-list view over the
returned bytes, and fails with the `Other` kind when the fetch returns no
value. -/
theorem chain_head_events_spec :
    systemEventsKey = twox128 (strBytes "System") ++ twox128 (strBytes "Events") ∧
    (∀ (m : Metadata) (hash : List Nat)
      (subscribe : List Nat → Subscription (Option String)),
      (storage_raw subscribe systemEventsKey = .ok none →
        ChainHeadBlock.events m hash subscribe =
          .error (.Other "Failed to fetch System::Events storage")) ∧
      (∀ bs, storage_raw subscribe systemEventsKey = .ok (some bs) →
        ChainHeadBlock.events m hash subscribe = .ok ⟨m, hash, bs⟩) ∧
      (∀ subscribe2 : List Nat → Subscription (Option String),
        subscribe systemEventsKey = subscribe2 systemEventsKey →
        ChainHeadBlock.events m hash subscribe =
          ChainHeadBlock.events m hash subscribe2)) := by
  refine ⟨rfl, ?_⟩
  intro m hash subscribe
  refine ⟨fun h1 => ?_, fun bs h1 => ?_, fun subscribe2 h1 => ?_⟩
  · simp [ChainHeadBlock.events, h1]
  · simp [ChainHeadBlock.events, h1]
  · simp only [ChainHeadBlock.events, storage_raw]
    rw [h1]

theorem chain_head_events_spec_witness :
    ChainHeadBlock.events sampleMetadata [7] subDoneNone =
      .error (.Other "Failed to fetch System::Events storage") ∧
    ChainHeadBlock.events sampleMetadata [7] subDone42 =
      .ok ⟨sampleMetadata, [7], [42]⟩ :=
  ⟨(chain_head_events_spec.2 sampleMetadata [7] subDoneNone).1 rfl,
   (chain_head_events_spec.2 sampleMetadata [7] subDone42).2.1 [42] rfl⟩

def evOk0 : EventDetails := ⟨.ApplyExtrinsic 0, 10⟩

def evOk1 : EventDetails := ⟨.ApplyExtrinsic 1, 11⟩

def sampleEventList : List (Except Error EventDetails) :=
  [.ok evOk0, .ok evOk1, .error (.Codec "bad event"), .ok ⟨.Finalization, 12⟩]

/-- Claim C9: `ExtrinsicEvents::iter` over a block event list yields exactly
the elements that are decode errors or decode to an event with phase
`ApplyExtrinsic` at the stored index; filtering the same list by two
distinct indices gives subsets whose successfully-decoded events are
disjoint, while decode errors appear in every index's subset. -/
theorem extrinsic_events_iter_spec :
    ∀ (xh1 xh2 : List Nat) (evs : List (Except Error EventDetails)) (i j : Nat),
      (∀ r, r ∈ (ExtrinsicEvents.mk xh1 i evs).iter ↔
        (r ∈ evs ∧ ∀ ev, r = .ok ev → ev.phase = .ApplyExtrinsic i)) ∧
      (i ≠ j → ∀ ev, Except.ok ev ∈ (ExtrinsicEvents.mk xh1 i evs).iter →
        Except.ok ev ∉ (ExtrinsicEvents.mk xh2 j evs).iter) ∧
      (∀ e, Except.error e ∈ evs →
        Except.error e ∈ (ExtrinsicEvents.mk xh1 i evs).iter ∧
        Except.error e ∈ (ExtrinsicEvents.mk xh2 j evs).iter) := by
  intro xh1 xh2 evs i j
  have hmem : ∀ (xh : List Nat) (k : Nat) (r : Except Error EventDetails),
      r ∈ (ExtrinsicEvents.mk xh k evs).iter ↔
        (r ∈ evs ∧ ∀ ev, r = .ok ev → ev.phase = .ApplyExtrinsic k) := by
    intro xh k r
    simp only [ExtrinsicEvents.iter, List.mem_filter]
    constructor
    · rintro ⟨hin, hp⟩
      refine ⟨hin, ?_⟩
      rintro ev rfl
      simpa using hp
    · rintro ⟨hin, hp⟩
      refine ⟨hin, ?_⟩
      cases r with
      | error e => rfl
      | ok ev => simpa using hp ev rfl
  refine ⟨hmem xh1 i, fun hij ev hin hjn => ?_, fun e he => ?_⟩
  · have hpi := ((hmem xh1 i _).1 hin).2 ev rfl
    have hpj := ((hmem xh2 j _).1 hjn).2 ev rfl
    exact hij (Phase.ApplyExtrinsic.inj (hpi.symm.trans hpj))
  · exact ⟨(hmem xh1 i _).2 ⟨he, fun ev hev => nomatch hev⟩,
      (hmem xh2 j _).2 ⟨he, fun ev hev => nomatch hev⟩⟩

theorem extrinsic_events_iter_spec_witness :
    Except.ok evOk0 ∈ (ExtrinsicEvents.mk [1] 0 sampleEventList).iter ∧
    Except.ok evOk0 ∉ (ExtrinsicEvents.mk [2] 1 sampleEventList).iter ∧
    Except.error (Error.Codec "bad event") ∈
      (ExtrinsicEvents.mk [1] 0 sampleEventList).iter ∧
    Except.error (Error.Codec "bad event") ∈
      (ExtrinsicEvents.mk [2] 1 sampleEventList).iter :=
  ⟨by decide,
   (extrinsic_events_iter_spec [1] [2] sampleEventList 0 1).2.1 (by decide) evOk0
     (by decide),
   ((extrinsic_events_iter_spec [1] [2] sampleEventList 0 1).2.2
     (Error.Codec "bad event") (by decide)).1,
   ((extrinsic_events_iter_spec [1] [2] sampleEventList 0 1).2.2
     (Error.Codec "bad event") (by decide)).2⟩

/-- Claim C10: `has` returns `Ok(true)` exactly when `find_first` returns
`Ok(Some _)`, `Ok(false)` exactly when `find_first` returns `Ok(None)`, and
an error exactly when `find_first` returns that error. -/
theorem has_iff_find_first :
    ∀ {Ev : Type} (asEvent : EventDetails → Except Error (Option Ev))
      (ee : ExtrinsicEvents),
      (ee.has asEvent = .ok true ↔ ∃ v, ee.find_first asEvent = .ok (some v)) ∧
      (ee.has asEvent = .ok false ↔ ee.find_first asEvent = .ok none) ∧
      (∀ e, ee.has asEvent = .error e ↔ ee.find_first asEvent = .error e) := by
  intro Ev asEvent ee
  unfold ExtrinsicEvents.has ExtrinsicEvents.find_first
  cases hx : nextTranspose (ee.find asEvent) with
  | error e => simp
  | ok o =>
    cases o with
    | none => simp
    | some v =>
      exact ⟨⟨fun _ => ⟨v, rfl⟩, fun _ => rfl⟩, by simp, by simp⟩

/-- Claim C1 (refuted by the code): the source's `get_events` returns the
cached events when the cell is populated without fetching, but in the
unpopulated arm it fetches and returns the events without ever writing them
into the cell — the cell stays empty after a successful call, so a second
call on the same cache performs a second underlying fetch, contradicting
the claimed single-flight fetch-or-reuse discipline (and the code's own
comment). -/
theorem get_events_cache_never_populated :
    (get_events none (.ok sampleEvents)).result = .ok sampleEvents ∧
    (get_events none (.ok sampleEvents)).cacheAfter = none ∧
    (get_events none (.ok sampleEvents)).cacheAfter ≠ some sampleEvents ∧
    (get_events (get_events none (.ok sampleEvents)).cacheAfter
      (.ok sampleEvents)).fetches = 1 ∧
    (∀ (events : Events) (fetch : Except Error Events),
      (get_events (some events) fetch).result = .ok events ∧
      (get_events (some events) fetch).fetches = 0) := by
  refine ⟨rfl, rfl, by simp [get_events], rfl, fun events fetch => ⟨rfl, rfl⟩⟩

end Subxt
